import Mathlib

/-!
Verification of the Zentry VM-lifecycle and credit-ledger engine.

The repository's storage layer is embedded from
`src/backend/migrations/001_initial_schema.sql` and
`src/backend/migrations/002_add_indexes_and_constraints.sql`
(column defaults, CHECK constraints, and the two business triggers
`update_vm_costs` and `update_user_spending`), and the pricing / billing
tables shown by the frontend (`src/components/PricingCalculator.tsx`,
`src/unnamed/part_000`).  The Python service layer (vm_service.py,
billing_service.py) is not present in the repository snapshot, so the
Lifecycle Orchestrator and VM State Machine are modelled from the spec
where a claim needs them; such definitions say so in their doc comment.

Currency values are rationals; a value stored into a DECIMAL(10,2)
column is rounded to two fractional digits, half away from zero, which
`round2` models.
-/

namespace Zentry

/-- Rounding applied when a numeric value is assigned into a
DECIMAL(10,2) column: two fractional digits, half away from zero
(PostgreSQL numeric rounding). -/
def round2 (q : ℚ) : ℚ :=
  if 0 ≤ q then (⌊q * 100 + 1 / 2⌋ : ℚ) / 100 else -((⌊-q * 100 + 1 / 2⌋ : ℚ) / 100)

/-- Valid instance types per the CHECK constraint on `vms.instance_type`
(001_initial_schema.sql, line 35). -/
def validInstanceTypes : List String := ["small", "medium", "large", "xlarge"]

/-- CHECK (instance_type IN ('small', 'medium', 'large', 'xlarge')). -/
def instanceTypeCheck (t : String) : Bool := validInstanceTypes.contains t

/-- Valid VM statuses per the CHECK constraint on `vms.status`
(001_initial_schema.sql, line 37). -/
def validVMStatuses : List String := ["creating", "running", "stopped", "terminated", "error"]

/-- CHECK (status IN ('creating', 'running', 'stopped', 'terminated', 'error')). -/
def vmStatusCheck (s : String) : Bool := validVMStatuses.contains s

/-- The CASE expression of the `update_vm_costs` trigger function
(002_add_indexes_and_constraints.sql, lines 28-34): hourly rate by
instance type, with ELSE 0.05 for any other input. -/
def caseInstanceRate (t : String) : ℚ :=
  if t = "small" then 5 / 100
  else if t = "medium" then 10 / 100
  else if t = "large" then 20 / 100
  else if t = "xlarge" then 40 / 100
  else 5 / 100

/-- The columns of a `vms` row that the cost trigger and the CHECK
constraints touch (001_initial_schema.sql). -/
structure VMRow where
  instance_type : String
  status : String
  cost_per_hour : ℚ
  uptime_hours : ℚ
  total_cost : ℚ
deriving DecidableEq, Repr

/-- Trigger function `update_vm_costs`
(002_add_indexes_and_constraints.sql, lines 25-42): BEFORE INSERT OR
UPDATE on `vms`, recompute `cost_per_hour` from `instance_type` and set
`total_cost = uptime_hours * cost_per_hour` (stored into DECIMAL(10,2),
hence `round2`). -/
def update_vm_costs (new : VMRow) : VMRow :=
  let rate := caseInstanceRate new.instance_type
  { new with
    cost_per_hour := rate
    total_cost := round2 (new.uptime_hours * rate) }

/-- The CHECK constraints on `vms` rows: instance type and status
enumerations (001_initial_schema.sql) and `chk_vms_uptime_positive`,
`chk_vms_total_cost_positive`, `chk_vms_cost_per_hour_positive`
(002_add_indexes_and_constraints.sql, lines 17-19). -/
def vmRowChecks (r : VMRow) : Bool :=
  instanceTypeCheck r.instance_type && vmStatusCheck r.status &&
    decide (0 ≤ r.uptime_hours) && decide (0 ≤ r.total_cost) &&
    decide (0 < r.cost_per_hour)

/-- INSERT INTO vms: the BEFORE trigger `update_vm_costs` fires first,
then the row must pass the CHECK constraints to commit. -/
def insertVM (new : VMRow) : Option VMRow :=
  let r := update_vm_costs new
  if vmRowChecks r then some r else none

/-- UPDATE on a `vms` row: same BEFORE trigger and CHECK constraints as
an insert (the trigger is declared BEFORE INSERT OR UPDATE). -/
def updateVM (new : VMRow) : Option VMRow :=
  insertVM new

/-- Column writes the lifecycle operations perform on a `vms` row:
status changes (start/stop/restart/delete) and uptime accrual.  None of
them writes `instance_type`. -/
inductive VMColUpdate where
  | setStatus (s : String)
  | setUptime (h : ℚ)
deriving DecidableEq, Repr

/-- Apply one column write and run it through the UPDATE path
(trigger plus CHECK constraints). -/
def applyVMUpdate (r : VMRow) (u : VMColUpdate) : Option VMRow :=
  match u with
  | .setStatus s => updateVM { r with status := s }
  | .setUptime h => updateVM { r with uptime_hours := h }

/-- Apply a sequence of column writes; any failing write aborts. -/
def applyVMUpdates (r : VMRow) : List VMColUpdate → Option VMRow
  | [] => some r
  | u :: us => (applyVMUpdate r u).bind fun r' => applyVMUpdates r' us

/-- Pricing table `vmPricing` of the frontend cost calculator
(src/components/PricingCalculator.tsx, lines 18-23). -/
def vmPricing (t : String) : Option ℚ :=
  if t = "small" then some (5 / 100)
  else if t = "medium" then some (10 / 100)
  else if t = "large" then some (20 / 100)
  else if t = "xlarge" then some (40 / 100)
  else none

/-- The columns of a `users` row the billing trigger and the CHECK
constraints touch (001_initial_schema.sql). -/
structure UserRow where
  credits : ℚ
  total_spent : ℚ
  is_active : Bool
deriving DecidableEq, Repr

/-- Column defaults of `users`: credits DEFAULT 50.00, total_spent
DEFAULT 0.00, is_active DEFAULT true (001_initial_schema.sql, lines
13-15; supabase_schema.sql line 13 also has credits DEFAULT 50.00). -/
def defaultUserRow : UserRow :=
  { credits := 50, total_spent := 0, is_active := true }

/-- Constraints `chk_users_credits_positive` and
`chk_users_total_spent_positive` (002_add_indexes_and_constraints.sql,
lines 15-16). -/
def userRowChecks (u : UserRow) : Bool :=
  decide (0 ≤ u.credits) && decide (0 ≤ u.total_spent)

/-- INSERT INTO users, applying the column defaults for columns not
supplied, then the CHECK constraints. -/
def insertUser (creditsGiven : Option ℚ) (totalSpentGiven : Option ℚ) : Option UserRow :=
  let r : UserRow :=
    { credits := creditsGiven.getD 50
      total_spent := totalSpentGiven.getD 0
      is_active := true }
  if userRowChecks r then some r else none

/-- The columns of a `billing_records` row relevant to the ledger
claims (001_initial_schema.sql, lines 51-59): the signed amount and the
action type.  `action_type` is VARCHAR(50) NOT NULL with no CHECK
constraint on its value. -/
structure BillingRecord where
  amount : ℚ
  action_type : String
deriving DecidableEq, Repr

/-- Constraint `chk_billing_amount_not_zero`
(002_add_indexes_and_constraints.sql, line 22): CHECK (amount != 0). -/
def billingAmountCheck (amount : ℚ) : Bool := decide (amount ≠ 0)

/-- Trigger function `update_user_spending`
(002_add_indexes_and_constraints.sql, lines 51-69): AFTER INSERT on
`billing_records`, when NEW.amount > 0, add NEW.amount to the owning
user's `total_spent`; otherwise do nothing.  It does not inspect
`action_type` and writes no other business column. -/
def update_user_spending (amount : ℚ) (u : UserRow) : UserRow :=
  if 0 < amount then { u with total_spent := u.total_spent + amount } else u

/-- INSERT INTO billing_records: the amount CHECK constraint, the
append of the row, and the AFTER trigger's update of the owning `users`
row (which must itself still satisfy the users CHECK constraints). -/
def insertBillingRecord (rec : BillingRecord) (u : UserRow) (recs : List BillingRecord) :
    Option (List BillingRecord × UserRow) :=
  if billingAmountCheck rec.amount then
    if userRowChecks (update_user_spending rec.amount u) then
      some (recs ++ [rec], update_user_spending rec.amount u)
    else none
  else none

/-- UPDATE users SET ...: the written row commits only if it passes the
users CHECK constraints of migration 002. -/
def commitUserUpdate (u : UserRow) : Option UserRow :=
  if userRowChecks u then some u else none

/-- Modelled from the spec: the backend's `stopVM` session debit
(vm_service.py / billing_service.py are not in the repository
snapshot).  Per §4.3 the stop posts the full session charge as a
`vm_usage` debit against the account in the same transaction; the
committed store enforces the CHECK constraints of migration 002
(`commitUserUpdate`). -/
def stopVMDebit (u : UserRow) (charge : ℚ) : Option UserRow :=
  commitUserUpdate { u with credits := u.credits - charge }

/-- VM status enumeration (§3 of the spec; the string form is the
`vms.status` CHECK enumeration). -/
inductive VMStatus where
  | creating
  | running
  | stopped
  | terminated
  | error
deriving DecidableEq, Repr, Fintype

/-- The lifecycle operations that can change a VM's status (§4.2,
§4.3): provisioning outcome, start, stop, restart, delete. -/
inductive LifecycleOp where
  | provisionOk
  | provisionFail
  | start
  | stop
  | restart
  | delete
deriving DecidableEq, Repr, Fintype

/-- The transition table of §4.2: `allowedEdge s t` holds exactly when
the table lists a transition from `s` to `t`. -/
def allowedEdge : VMStatus → VMStatus → Bool
  | .creating, .running => true
  | .creating, .error => true
  | .running, .stopped => true
  | .running, .running => true
  | .running, .terminated => true
  | .stopped, .running => true
  | .stopped, .terminated => true
  | .error, .terminated => true
  | _, _ => false

/-- Modelled from the spec: the VM State Machine (§4.2; vm_service.py
is not in the repository snapshot).  `none` is an `InvalidTransition`
failure; a failed operation leaves the status unchanged. -/
def stepVM (op : LifecycleOp) (s : VMStatus) : Option VMStatus :=
  match op, s with
  | .provisionOk, .creating => some .running
  | .provisionFail, .creating => some .error
  | .start, .stopped => some .running
  | .stop, .running => some .stopped
  | .restart, .running => some .running
  | .delete, .running => some .terminated
  | .delete, .stopped => some .terminated
  | .delete, .error => some .terminated
  | _, _ => none

/-- Run a sequence of lifecycle operations; an operation that fails
with `InvalidTransition` leaves the status as it was. -/
def runOps (ops : List LifecycleOp) (s : VMStatus) : VMStatus :=
  ops.foldl (fun s op => (stepVM op s).getD s) s

/-- Modelled from the spec: the Ledger Store (§3, §6; billing_service.py
is not in the repository snapshot).  Entries are append-only and carry
signed amounts; the materialized balance is updated by the same
transaction that appends the entry. -/
structure LedgerState where
  initial_balance : ℚ
  entries : List BillingRecord
  balance : ℚ
deriving DecidableEq, Repr

/-- A fresh account's ledger: no entries, balance at its initial value. -/
def LedgerState.init (b : ℚ) : LedgerState :=
  { initial_balance := b, entries := [], balance := b }

/-- Append one signed entry and apply its amount to the materialized
balance in the same transaction. -/
def postEntry (ls : LedgerState) (e : BillingRecord) : LedgerState :=
  { ls with entries := ls.entries ++ [e], balance := ls.balance + e.amount }

/-- Append a sequence of entries. -/
def postEntries (ls : LedgerState) : List BillingRecord → LedgerState
  | [] => ls
  | e :: es => postEntries (postEntry ls e) es

/-- The balance reconstructed purely from the audit stream: initial
balance plus the running sum of the recorded signed amounts. -/
def recomputedBalance (ls : LedgerState) : ℚ :=
  ls.initial_balance + (ls.entries.map (·.amount)).sum

/-- The shared state a Lifecycle Orchestrator call acts on: the owning
account's `users` row, the append-only `billing_records` of the
account, and the VM's status and hourly rate. -/
structure SysState where
  user : UserRow
  ledger : List BillingRecord
  vmStatus : VMStatus
  vmRate : ℚ
deriving DecidableEq, Repr

/-- Modelled from the spec: the fixed reserve threshold guarding
`createVM` (§4.3, Glossary; its concrete value is not in the
repository snapshot — §8's scenario shows a balance of 0.10 passes). -/
def minimumReserve : ℚ := 5 / 100

/-- Modelled from the spec: one atomic ledger posting (§3, §5;
billing_service.py is not in the repository snapshot).  A non-zero
signed amount is appended as a `billing_records` row — firing the
`update_user_spending` trigger — and applied to the materialized
credits column in the same transaction, which commits only if the
`users` CHECK constraints of migration 002 still hold.  A zero amount
posts nothing (`chk_billing_amount_not_zero` forbids a zero row).
`postedUser` is the users-row image of one posting: the trigger's
`total_spent` update plus the amount applied to the credits column. -/
def postedUser (amount : ℚ) (u : UserRow) : UserRow :=
  { update_user_spending amount u with
    credits := (update_user_spending amount u).credits + amount }

/-- Modelled from the spec: one atomic ledger posting over the shared
state (see `postedUser`). -/
def ledgerPost (amount : ℚ) (atype : String) (s : SysState) : Option SysState :=
  if amount = 0 then some s
  else if userRowChecks (postedUser amount s.user) then
    some { s with
            user := postedUser amount s.user
            ledger := s.ledger ++ [{ amount := amount, action_type := atype }] }
  else none

/-- Modelled from the spec: `stopVM` (§4.3).  Requires Running; charges
the session (`round2 (elapsed * rate)`, the Cost Model accrual) as a
`vm_usage` debit and moves the VM to Stopped. -/
def sysStop (elapsedHours : ℚ) (s : SysState) : Option SysState :=
  if s.vmStatus = VMStatus.running ∧ 0 ≤ elapsedHours then
    (ledgerPost (-(round2 (elapsedHours * s.vmRate))) "vm_usage" s).map fun s' =>
      { s' with vmStatus := .stopped }
  else none

/-- Modelled from the spec: `startVM` (§4.3).  Requires Stopped and a
positive balance, else InsufficientCredits. -/
def sysStart (s : SysState) : Option SysState :=
  if s.vmStatus = VMStatus.stopped ∧ 0 < s.user.credits then
    some { s with vmStatus := .running }
  else none

/-- The Lifecycle Orchestrator's public operations (§4.3). -/
inductive SysOp where
  | createVM (instanceType : String)
  | startVM
  | stopVM (elapsedHours : ℚ)
  | restartVM (elapsedHours : ℚ)
  | deleteVM (elapsedHours : ℚ)
  | addCredits (amount : ℚ)
deriving DecidableEq, Repr

/-- Modelled from the spec: one Lifecycle Orchestrator call (§4.3;
vm_service.py is not in the repository snapshot).  `none` is the
operation's failure (InsufficientCredits, InvalidInstanceClass,
InvalidTransition or InvalidAmount); a failed call mutates nothing. -/
def applySysOp (op : SysOp) (s : SysState) : Option SysState :=
  match op with
  | .createVM t =>
      if instanceTypeCheck t && decide (minimumReserve ≤ s.user.credits) then
        some { s with vmStatus := .running, vmRate := caseInstanceRate t }
      else none
  | .startVM => sysStart s
  | .stopVM e => sysStop e s
  | .restartVM e => (sysStop e s).bind sysStart
  | .deleteVM e =>
      match s.vmStatus with
      | .running => (sysStop e s).map fun s' => { s' with vmStatus := .terminated }
      | .terminated => none
      | _ => some { s with vmStatus := .terminated }
  | .addCredits a =>
      if 0 < a then ledgerPost a "credit_add" s else none

/-- Run a sequence of orchestrator calls; any failing call aborts. -/
def applySysOps (s : SysState) : List SysOp → Option SysState
  | [] => some s
  | op :: ops => (applySysOp op s).bind fun s' => applySysOps s' ops

/-- Colour classes of the billing-history UI, `getActionTypeColor`
(src/unnamed/part_000, lines 1104-1112): one colour per known action
type, grey as the default for anything else. -/
def getActionTypeColor (actionType : String) : String :=
  if actionType = "vm_create" then "bg-blue-100 text-blue-800"
  else if actionType = "vm_usage" then "bg-green-100 text-green-800"
  else if actionType = "credit_add" then "bg-purple-100 text-purple-800"
  else if actionType = "credit_deduct" then "bg-red-100 text-red-800"
  else "bg-gray-100 text-gray-800"

/-- The fixed reason set the spec asserts for LedgerEntry (§3). -/
def specReasonSet : List String := ["vm_create", "vm_usage", "credit_add", "manual_adjustment"]

/-- The action types the repository distinguishes: exactly the
non-default branches of `getActionTypeColor`. -/
def knownActionTypes : List String := ["vm_create", "vm_usage", "credit_add", "credit_deduct"]

/-- C9: a users row inserted without explicit values for `credits` and
`total_spent` commits with credits exactly 50.00 and total_spent
exactly 0.00 (the column defaults of 001_initial_schema.sql, in force
also in supabase_schema.sql). -/
theorem C9_default_account :
    insertUser none none = some defaultUserRow ∧
    defaultUserRow.credits = 50 ∧ defaultUserRow.total_spent = 0 := by
  refine ⟨?_, rfl, rfl⟩
  norm_num [insertUser, userRowChecks, defaultUserRow]

/-- C4: the hourly rate is exactly small=0.05, medium=0.10, large=0.20,
xlarge=0.40 — in the `update_vm_costs` trigger's CASE and in the
frontend `vmPricing` table — and the trigger sets
`total_cost = uptime_hours * cost_per_hour` rounded to the 2-digit
currency precision of the DECIMAL(10,2) column; in particular a 0.05/hr
VM with 2 hours of uptime is charged exactly 0.10. -/
theorem C4_pricing_and_accrual :
    caseInstanceRate "small" = 5 / 100 ∧ caseInstanceRate "medium" = 10 / 100 ∧
    caseInstanceRate "large" = 20 / 100 ∧ caseInstanceRate "xlarge" = 40 / 100 ∧
    vmPricing "small" = some (5 / 100) ∧ vmPricing "medium" = some (10 / 100) ∧
    vmPricing "large" = some (20 / 100) ∧ vmPricing "xlarge" = some (40 / 100) ∧
    (∀ r : VMRow, (update_vm_costs r).total_cost
        = round2 (r.uptime_hours * caseInstanceRate r.instance_type)) ∧
    (update_vm_costs
      { instance_type := "small", status := "running", cost_per_hour := 5 / 100,
        uptime_hours := 2, total_cost := 0 }).total_cost = 1 / 10 := by
  refine ⟨by simp [caseInstanceRate], by simp [caseInstanceRate], by simp [caseInstanceRate],
    by simp [caseInstanceRate], by simp [vmPricing], by simp [vmPricing], by simp [vmPricing],
    by simp [vmPricing], fun r => rfl, ?_⟩
  norm_num [update_vm_costs, caseInstanceRate, round2]

/-- C5 (counterexample): "gpu-huge" is not a known instance class, yet
the rate lookup of the `update_vm_costs` trigger does not fail — its
CASE falls through ELSE and returns the rate 0.05. -/
theorem C5_counterexample :
    instanceTypeCheck "gpu-huge" = false ∧
    caseInstanceRate "gpu-huge" = 5 / 100 ∧
    (update_vm_costs
      { instance_type := "gpu-huge", status := "creating", cost_per_hour := 1,
        uptime_hours := 0, total_cost := 0 }).cost_per_hour = 5 / 100 := by
  refine ⟨by decide, by simp [caseInstanceRate], by simp [update_vm_costs, caseInstanceRate]⟩

/-- C5 (amended): an unknown instance class is rejected, but by the
`vms.instance_type` CHECK constraint at the storage boundary — any
insert whose class is outside {small, medium, large, xlarge} fails —
while the trigger's internal rate CASE does not fail and instead
defaults unknown classes to 0.05. -/
theorem C5_unknown_class_rejected (r : VMRow)
    (h : instanceTypeCheck r.instance_type = false) : insertVM r = none := by
  simp [insertVM, vmRowChecks, update_vm_costs, h]

/-- C5 witness: the amended statement at the concrete class "gpu-huge". -/
theorem C5_witness :
    insertVM
      { instance_type := "gpu-huge", status := "creating", cost_per_hour := 1,
        uptime_hours := 0, total_cost := 0 } = none :=
  C5_unknown_class_rejected _ (by decide)

/-- C1 (counterexample): with balance 0.10 and a session charge of
0.20, the stop's full debit cannot commit — the written row has credits
−0.10 and `chk_users_credits_positive` rejects it — so the debit is not
committed with a negative balance as the claim states. -/
theorem C1_counterexample :
    stopVMDebit { credits := 1 / 10, total_spent := 0, is_active := true } (1 / 5) = none ∧
    ¬ (0 ≤ (1 / 10 : ℚ) - 1 / 5) := by
  constructor
  · norm_num [stopVMDebit, commitUserUpdate, userRowChecks]
  · norm_num

/-- C1 (amended): a stopVM session debit commits only when the
resulting balance is non-negative — `chk_users_credits_positive` makes
every committed balance ≥ 0, so a stop whose debit would drive the
balance negative is rejected by the store instead of being committed
with a negative balance. -/
theorem C1_stop_debit_nonneg (u : UserRow) (charge : ℚ) (u' : UserRow)
    (h : stopVMDebit u charge = some u') :
    u'.credits = u.credits - charge ∧ 0 ≤ u'.credits := by
  unfold stopVMDebit commitUserUpdate at h
  split at h
  case isTrue hc =>
    rw [Option.some_inj] at h
    subst h
    simp only [userRowChecks, Bool.and_eq_true, decide_eq_true_eq] at hc
    exact ⟨rfl, hc.1⟩
  case isFalse => exact absurd h (by simp)

/-- C1 witness: the amended statement at balance 0.10 and charge 0.05. -/
theorem C1_witness :
    ({ credits := 1 / 20, total_spent := 0, is_active := true } : UserRow).credits
        = ({ credits := 1 / 10, total_spent := 0, is_active := true } : UserRow).credits - 1 / 20 ∧
    (0 : ℚ) ≤ ({ credits := 1 / 20, total_spent := 0, is_active := true } : UserRow).credits :=
  C1_stop_debit_nonneg
    { credits := 1 / 10, total_spent := 0, is_active := true } (1 / 20)
    { credits := 1 / 20, total_spent := 0, is_active := true }
    (by norm_num [stopVMDebit, commitUserUpdate, userRowChecks])

/-- C3: every successful step of the VM state machine moves along an
edge of the §4.2 transition table, and Terminated is absorbing — no
sequence of lifecycle operations ever changes the status of a
Terminated VM. -/
theorem C3_state_machine_safety :
    (∀ (op : LifecycleOp) (s t : VMStatus), stepVM op s = some t → allowedEdge s t = true) ∧
    (∀ ops : List LifecycleOp, runOps ops VMStatus.terminated = VMStatus.terminated) := by
  constructor
  · decide
  · intro ops
    induction ops with
    | nil => rfl
    | cons op ops ih =>
      show List.foldl _ _ (op :: ops) = _
      rw [List.foldl_cons]
      have hstep : ((stepVM op VMStatus.terminated).getD VMStatus.terminated)
          = VMStatus.terminated := by cases op <;> rfl
      rw [hstep]
      exact ih

/-- A lifecycle column write never touches `instance_type`, and the
BEFORE trigger recomputes `cost_per_hour` from it. -/
theorem applyVMUpdate_frame (r : VMRow) (u : VMColUpdate) (r' : VMRow)
    (h : applyVMUpdate r u = some r') :
    r'.instance_type = r.instance_type ∧
    r'.cost_per_hour = caseInstanceRate r.instance_type := by
  cases u with
  | setStatus s =>
    simp only [applyVMUpdate, updateVM, insertVM] at h
    split at h
    · rw [Option.some_inj] at h; subst h; exact ⟨rfl, rfl⟩
    · exact absurd h (by simp)
  | setUptime hq =>
    simp only [applyVMUpdate, updateVM, insertVM] at h
    split at h
    · rw [Option.some_inj] at h; subst h; exact ⟨rfl, rfl⟩
    · exact absurd h (by simp)

/-- Along any chain of lifecycle column writes, a row whose
`cost_per_hour` is the trigger's value for its class keeps that
`cost_per_hour`. -/
theorem applyVMUpdates_cost (us : List VMColUpdate) :
    ∀ r r' : VMRow, r.cost_per_hour = caseInstanceRate r.instance_type →
      applyVMUpdates r us = some r' → r'.cost_per_hour = r.cost_per_hour := by
  induction us with
  | nil =>
    intro r r' _ h
    simp only [applyVMUpdates] at h
    rw [Option.some_inj] at h; subst h; rfl
  | cons u us ih =>
    intro r r' hr h
    simp only [applyVMUpdates] at h
    cases hu : applyVMUpdate r u with
    | none => rw [hu] at h; exact absurd h (by simp)
    | some r1 =>
      rw [hu, Option.some_bind] at h
      obtain ⟨hit, hcp⟩ := applyVMUpdate_frame r u r1 hu
      have h1 : r1.cost_per_hour = caseInstanceRate r1.instance_type := by rw [hit, hcp]
      rw [ih r1 r' h1 h, hcp, hr]

/-- C7: `cost_per_hour` is derived from the instance class by the
BEFORE trigger at creation, and every later lifecycle column write
(status change, uptime accrual) goes through the same trigger and — as
none of them writes `instance_type` — leaves `cost_per_hour` at its
creation-time value. -/
theorem C7_cost_per_hour_immutable (new r r' : VMRow) (us : List VMColUpdate)
    (hc : insertVM new = some r) (hu : applyVMUpdates r us = some r') :
    r'.cost_per_hour = r.cost_per_hour := by
  have hr : r.cost_per_hour = caseInstanceRate r.instance_type := by
    simp only [insertVM] at hc
    split at hc
    · rw [Option.some_inj] at hc; subst hc; rfl
    · exact absurd hc (by simp)
  exact applyVMUpdates_cost us r r' hr hu

/-- C7 witness: a small VM created, started and accruing 2 hours of
uptime still carries its creation-time rate 0.05. -/
theorem C7_witness :
    ({ instance_type := "small", status := "running", cost_per_hour := 5 / 100,
       uptime_hours := 2, total_cost := 1 / 10 } : VMRow).cost_per_hour
      = ({ instance_type := "small", status := "creating", cost_per_hour := 5 / 100,
           uptime_hours := 0, total_cost := 0 } : VMRow).cost_per_hour :=
  C7_cost_per_hour_immutable
    { instance_type := "small", status := "creating", cost_per_hour := 1,
      uptime_hours := 0, total_cost := 0 }
    _ _ [VMColUpdate.setStatus "running", VMColUpdate.setUptime 2]
    (by norm_num [insertVM, update_vm_costs, caseInstanceRate, round2, vmRowChecks,
      instanceTypeCheck, vmStatusCheck, validInstanceTypes, validVMStatuses])
    (by norm_num [applyVMUpdates, applyVMUpdate, updateVM, insertVM, update_vm_costs,
      caseInstanceRate, round2, vmRowChecks, instanceTypeCheck, vmStatusCheck,
      validInstanceTypes, validVMStatuses])

/-- Posting entries preserves the agreement between the materialized
balance and the balance recomputed from the audit stream. -/
theorem postEntries_agree (es : List BillingRecord) :
    ∀ ls : LedgerState, ls.balance = recomputedBalance ls →
      (postEntries ls es).balance = recomputedBalance (postEntries ls es) := by
  induction es with
  | nil => intro ls h; exact h
  | cons e es ih =>
    intro ls h
    simp only [postEntries]
    apply ih
    simp only [postEntry, recomputedBalance, List.map_append, List.sum_append,
      List.map_cons, List.map_nil, List.sum_cons, List.sum_nil] at h ⊢
    rw [h]; ring

/-- C2: at every point of an account's history — after any sequence of
posted entries over a fresh ledger — the materialized balance equals
the initial balance plus the running sum of the recorded signed
amounts. -/
theorem C2_ledger_round_trip (b : ℚ) (es : List BillingRecord) :
    (postEntries (LedgerState.init b) es).balance
      = recomputedBalance (postEntries (LedgerState.init b) es) :=
  postEntries_agree es (LedgerState.init b) (by simp [LedgerState.init, recomputedBalance])

/-- A ledger posting never decreases `total_spent`: its only write to
that column is the `update_user_spending` trigger, which adds the
amount only when it is positive. -/
theorem ledgerPost_spent (a : ℚ) (t : String) (s s' : SysState)
    (h : ledgerPost a t s = some s') : s.user.total_spent ≤ s'.user.total_spent := by
  unfold ledgerPost at h
  split at h
  · rw [Option.some_inj] at h; subst h; exact le_refl _
  · split at h
    · rw [Option.some_inj] at h; subst h
      show s.user.total_spent ≤ (update_user_spending a s.user).total_spent
      unfold update_user_spending
      split
      case isTrue hpos => exact le_add_of_nonneg_right (le_of_lt hpos)
      case isFalse => exact le_refl _
    · exact absurd h (by simp)

/-- A ledger posting appends at most the one entry it is given. -/
theorem ledgerPost_entries (a : ℚ) (t : String) (s s' : SysState)
    (h : ledgerPost a t s = some s') :
    ∀ r : BillingRecord, r ∈ s'.ledger → r ∈ s.ledger ∨ r.action_type = t := by
  unfold ledgerPost at h
  split at h
  · rw [Option.some_inj] at h; subst h; exact fun r hr => Or.inl hr
  · split at h
    · rw [Option.some_inj] at h; subst h
      intro r hr
      simp only [List.mem_append, List.mem_singleton] at hr
      rcases hr with hr | hr
      · exact Or.inl hr
      · subst hr; exact Or.inr rfl
    · exact absurd h (by simp)

/-- The stop path: monotone `total_spent`. -/
theorem sysStop_spent (e : ℚ) (s s' : SysState) (h : sysStop e s = some s') :
    s.user.total_spent ≤ s'.user.total_spent := by
  unfold sysStop at h
  split at h
  · cases hm : ledgerPost (-(round2 (e * s.vmRate))) "vm_usage" s with
    | none => rw [hm] at h; exact absurd h (by simp)
    | some s1 =>
      rw [hm, Option.map_some'] at h
      rw [Option.some_inj] at h; subst h
      exact ledgerPost_spent _ _ s s1 hm
  · exact absurd h (by simp)

/-- The stop path: any appended entry is a `vm_usage` one. -/
theorem sysStop_entries (e : ℚ) (s s' : SysState) (h : sysStop e s = some s') :
    ∀ r : BillingRecord, r ∈ s'.ledger → r ∈ s.ledger ∨ r.action_type = "vm_usage" := by
  unfold sysStop at h
  split at h
  · cases hm : ledgerPost (-(round2 (e * s.vmRate))) "vm_usage" s with
    | none => rw [hm] at h; exact absurd h (by simp)
    | some s1 =>
      rw [hm, Option.map_some'] at h
      rw [Option.some_inj] at h; subst h
      exact ledgerPost_entries _ _ s s1 hm
  · exact absurd h (by simp)

/-- Every successful orchestrator call leaves `total_spent` at least
where it was. -/
theorem applySysOp_spent (op : SysOp) (s s' : SysState)
    (h : applySysOp op s = some s') : s.user.total_spent ≤ s'.user.total_spent := by
  cases op with
  | createVM t =>
    simp only [applySysOp] at h
    split at h
    · rw [Option.some_inj] at h; subst h; exact le_refl _
    · exact absurd h (by simp)
  | startVM =>
    simp only [applySysOp] at h
    unfold sysStart at h
    split at h
    · rw [Option.some_inj] at h; subst h; exact le_refl _
    · exact absurd h (by simp)
  | stopVM e => exact sysStop_spent e s s' h
  | restartVM e =>
    simp only [applySysOp] at h
    cases hm : sysStop e s with
    | none => rw [hm] at h; exact absurd h (by simp)
    | some s1 =>
      rw [hm, Option.some_bind] at h
      have h1 := sysStop_spent e s s1 hm
      unfold sysStart at h
      split at h
      · rw [Option.some_inj] at h; subst h; exact h1
      · exact absurd h (by simp)
  | deleteVM e =>
    simp only [applySysOp] at h
    cases hs : s.vmStatus with
    | running =>
      rw [hs] at h
      cases hm : sysStop e s with
      | none => rw [hm] at h; exact absurd h (by simp)
      | some s1 =>
        rw [hm, Option.map_some'] at h
        rw [Option.some_inj] at h; subst h
        exact sysStop_spent e s s1 hm
    | terminated => rw [hs] at h; exact absurd h (by simp)
    | creating =>
      rw [hs] at h; rw [Option.some_inj] at h; subst h; exact le_refl _
    | stopped =>
      rw [hs] at h; rw [Option.some_inj] at h; subst h; exact le_refl _
    | error =>
      rw [hs] at h; rw [Option.some_inj] at h; subst h; exact le_refl _
  | addCredits a =>
    simp only [applySysOp] at h
    split at h
    · exact ledgerPost_spent _ _ _ _ h
    · exact absurd h (by simp)

/-- Monotonicity of `total_spent` along any sequence of calls. -/
theorem applySysOps_spent (ops : List SysOp) :
    ∀ s s' : SysState, applySysOps s ops = some s' →
      s.user.total_spent ≤ s'.user.total_spent := by
  induction ops with
  | nil =>
    intro s s' h
    simp only [applySysOps] at h
    rw [Option.some_inj] at h; subst h; exact le_refl _
  | cons op ops ih =>
    intro s s' h
    simp only [applySysOps] at h
    cases hm : applySysOp op s with
    | none => rw [hm] at h; exact absurd h (by simp)
    | some s1 =>
      rw [hm, Option.some_bind] at h
      exact le_trans (applySysOp_spent op s s1 hm) (ih s1 s' h)

/-- C6: `total_spent` is monotonically non-decreasing — no single
orchestrator operation (VM lifecycle, ledger posting, credit
addition), no sequence of them, and no raw `billing_records` insert
ever decreases it; its only writer is the `update_user_spending`
trigger, which adds only positive amounts. -/
theorem C6_total_spent_monotone :
    (∀ (op : SysOp) (s s' : SysState), applySysOp op s = some s' →
        s.user.total_spent ≤ s'.user.total_spent) ∧
    (∀ (ops : List SysOp) (s s' : SysState), applySysOps s ops = some s' →
        s.user.total_spent ≤ s'.user.total_spent) ∧
    (∀ (rec : BillingRecord) (u : UserRow) (recs : List BillingRecord)
        (out : List BillingRecord × UserRow),
        insertBillingRecord rec u recs = some out →
        u.total_spent ≤ out.2.total_spent) := by
  refine ⟨applySysOp_spent, applySysOps_spent, ?_⟩
  intro rec u recs out h
  unfold insertBillingRecord at h
  split at h
  · split at h
    · rw [Option.some_inj] at h; subst h
      show u.total_spent ≤ (update_user_spending rec.amount u).total_spent
      unfold update_user_spending
      split
      case isTrue hpos => exact le_add_of_nonneg_right (le_of_lt hpos)
      case isFalse => exact le_refl _
    · exact absurd h (by simp)
  · exact absurd h (by simp)

/-- Every entry an orchestrator call appends carries one of the
recognized action types. -/
theorem applySysOp_entries (op : SysOp) (s s' : SysState)
    (h : applySysOp op s = some s') :
    ∀ r ∈ s'.ledger, r ∈ s.ledger ∨ r.action_type ∈ knownActionTypes := by
  cases op with
  | createVM t =>
    simp only [applySysOp] at h
    split at h
    · rw [Option.some_inj] at h; subst h; exact fun r hr => Or.inl hr
    · exact absurd h (by simp)
  | startVM =>
    simp only [applySysOp] at h
    unfold sysStart at h
    split at h
    · rw [Option.some_inj] at h; subst h; exact fun r hr => Or.inl hr
    · exact absurd h (by simp)
  | stopVM e =>
    intro r hr
    rcases sysStop_entries e s s' h r hr with hm | hm
    · exact Or.inl hm
    · exact Or.inr (by rw [hm]; simp [knownActionTypes])
  | restartVM e =>
    simp only [applySysOp] at h
    cases hm : sysStop e s with
    | none => rw [hm] at h; exact absurd h (by simp)
    | some s1 =>
      rw [hm, Option.some_bind] at h
      unfold sysStart at h
      split at h
      · rw [Option.some_inj] at h; subst h
        intro r hr
        rcases sysStop_entries e s s1 hm r hr with hm' | hm'
        · exact Or.inl hm'
        · exact Or.inr (by rw [hm']; simp [knownActionTypes])
      · exact absurd h (by simp)
  | deleteVM e =>
    simp only [applySysOp] at h
    cases hs : s.vmStatus with
    | running =>
      rw [hs] at h
      cases hm : sysStop e s with
      | none => rw [hm] at h; exact absurd h (by simp)
      | some s1 =>
        rw [hm, Option.map_some'] at h
        rw [Option.some_inj] at h; subst h
        intro r hr
        rcases sysStop_entries e s s1 hm r hr with hm' | hm'
        · exact Or.inl hm'
        · exact Or.inr (by rw [hm']; simp [knownActionTypes])
    | terminated => rw [hs] at h; exact absurd h (by simp)
    | creating =>
      rw [hs] at h; rw [Option.some_inj] at h; subst h; exact fun r hr => Or.inl hr
    | stopped =>
      rw [hs] at h; rw [Option.some_inj] at h; subst h; exact fun r hr => Or.inl hr
    | error =>
      rw [hs] at h; rw [Option.some_inj] at h; subst h; exact fun r hr => Or.inl hr
  | addCredits a =>
    simp only [applySysOp] at h
    split at h
    · intro r hr
      rcases ledgerPost_entries a "credit_add" s s' h r hr with hm | hm
      · exact Or.inl hm
      · exact Or.inr (by rw [hm]; simp [knownActionTypes])
    · exact absurd h (by simp)

/-- C8 (counterexample): `credit_deduct` is an action type the
repository recognizes — the billing-history UI gives it its own colour
— and the schema accepts (no CHECK constraint on `action_type`), yet it
is not in the spec's fixed reason set; conversely the spec's
`manual_adjustment` is not a reason the repository distinguishes. -/
theorem C8_counterexample :
    getActionTypeColor "credit_deduct" = "bg-red-100 text-red-800" ∧
    specReasonSet.contains "credit_deduct" = false ∧
    getActionTypeColor "manual_adjustment" = "bg-gray-100 text-gray-800" ∧
    (insertBillingRecord { amount := -5, action_type := "credit_deduct" }
        defaultUserRow []).isSome = true := by
  refine ⟨by decide, by decide, by decide, ?_⟩
  norm_num [insertBillingRecord, billingAmountCheck, update_user_spending,
    userRowChecks, defaultUserRow]

/-- C8 (amended): the reasons the system records are drawn from
{vm_create, vm_usage, credit_add, credit_deduct} — exactly the action
types the billing-history UI distinguishes — `manual_adjustment` is not
among them, and the schema itself places no CHECK constraint on
`action_type`; every entry an orchestrator call appends carries one of
the recognized reasons. -/
theorem C8_reason_set :
    (∀ t : String,
        getActionTypeColor t ≠ "bg-gray-100 text-gray-800" ↔ t ∈ knownActionTypes) ∧
    (∀ (op : SysOp) (s s' : SysState), applySysOp op s = some s' →
        ∀ r ∈ s'.ledger, r ∈ s.ledger ∨ r.action_type ∈ knownActionTypes) := by
  refine ⟨?_, applySysOp_entries⟩
  intro t
  unfold getActionTypeColor knownActionTypes
  split_ifs with h1 h2 h3 h4 <;> simp_all

/-- C10: inserting a billing record fires `update_user_spending`: a
strictly positive amount adds exactly that amount to `total_spent` —
whatever the action type, `credit_add` included — while a negative
amount leaves the users row exactly as it was; in both cases no other
account column is written and the record is appended unchanged. -/
theorem C10_spending_trigger (rec : BillingRecord) (u : UserRow) (recs : List BillingRecord)
    (hnz : billingAmountCheck rec.amount = true)
    (hok : userRowChecks (update_user_spending rec.amount u) = true) :
    insertBillingRecord rec u recs
      = some (recs ++ [rec],
          if 0 < rec.amount then { u with total_spent := u.total_spent + rec.amount }
          else u) := by
  simp only [insertBillingRecord, hnz, hok, if_true]
  rfl

/-- C10 witness: the trigger at a concrete `credit_add` record of +25
against a fresh default account. -/
theorem C10_witness :
    insertBillingRecord { amount := 25, action_type := "credit_add" } defaultUserRow []
      = some (([] : List BillingRecord) ++ [{ amount := 25, action_type := "credit_add" }],
          if (0 : ℚ) < 25 then
            { defaultUserRow with total_spent := defaultUserRow.total_spent + 25 }
          else defaultUserRow) :=
  C10_spending_trigger { amount := 25, action_type := "credit_add" } defaultUserRow []
    (by norm_num [billingAmountCheck])
    (by norm_num [userRowChecks, update_user_spending, defaultUserRow])

end Zentry
